import Mathlib

/-!
# initrd_create (src/initrd_creator.c)

A shallow embedding of `initrd_create`: the function builds paths and shell
commands with `snprintf` into fixed buffers, asks the host to create directories
and run commands, and writes the guest `init` script.  The embedding is a pure
function from the arguments and an environment (what `system` and `fopen`
return) to the sequence of requests the function makes and its return value.

C strings are byte lists (the bytes before the terminating NUL); string
literals of the source are written as Lean string literals and encoded as
UTF-8, the encoding of the source file.
-/

set_option maxRecDepth 1000000
set_option maxHeartbeats 4000000

namespace InitrdCreator

/-- A C string: its bytes, without the terminating NUL. -/
abbrev CStr := List UInt8

/-- The bytes of a string literal of the source (UTF-8). -/
def lit (s : String) : CStr := s.data.flatMap String.utf8EncodeChar

/-! ## printf-style formatting -/

/-- An argument of a variadic formatting call. -/
inductive Arg where
  | str (s : CStr)
  | int (n : Int)
  deriving DecidableEq

/-- A parsed piece of a format string: literal bytes, `%s`, or `%d`. -/
inductive Piece where
  | text (t : CStr)
  | s
  | d
  deriving DecidableEq

/-- Puts a literal byte in front of parsed pieces, merging it into a leading text piece. -/
def consByte (c : UInt8) : List Piece → List Piece
  | Piece.text t :: ps => Piece.text (c :: t) :: ps
  | ps => Piece.text [c] :: ps

/-- Splits a format string into literal text and the conversions `%s` (37 115) and
`%d` (37 100), the only conversions the source uses.  Any other byte is literal. -/
def parseFmt : CStr → List Piece
  | [] => []
  | c :: rest =>
    if c = 37 then
      match rest with
      | [] => consByte c []
      | k :: rest2 =>
        if k = 115 then Piece.s :: parseFmt rest2
        else if k = 100 then Piece.d :: parseFmt rest2
        else consByte c (consByte k (parseFmt rest2))
    else consByte c (parseFmt rest)

/-- Decimal rendering of an `int` for `%d`. -/
def decimal (n : Int) : CStr :=
  if n < 0 then lit "-" ++ lit (Nat.repr n.natAbs) else lit (Nat.repr n.natAbs)

/-- Renders parsed pieces with the arguments, left to right. -/
def render : List Piece → List Arg → CStr
  | [], _ => []
  | Piece.text t :: ps, args => t ++ render ps args
  | Piece.s :: ps, Arg.str x :: args => x ++ render ps args
  | Piece.d :: ps, Arg.int n :: args => decimal n ++ render ps args
  | _ :: ps, _ :: args => render ps args
  | _ :: ps, [] => render ps []

/-- The text a printf-family call produces for a format and its arguments. -/
def format (fmt : CStr) (args : List Arg) : CStr := render (parseFmt fmt) args

/-- The call `snprintf(buf, size, fmt, ...)`: the content of `buf` afterwards, the formatted text cut to
`size - 1` bytes. -/
def snprintf (size : Nat) (fmt : CStr) (args : List Arg) : CStr :=
  (format fmt args).take (size - 1)

/-- The call `strcat(dst, src)` on a buffer of `size` bytes: the new content, or `none` when the
result with its NUL does not fit (a write past the buffer). -/
def strcat (size : Nat) (dst src : CStr) : Option CStr :=
  if dst.length + src.length + 1 ≤ size then some (dst ++ src) else none

/-! ## The environment and the requests -/

/-- Constants and helpers declared in `initrd_creator.h` and `tools.h`, which are
not part of the source file: the two mode values (distinct `case` labels), the fixed
helper binary paths, and the path utility `get_file_name`. -/
structure Config where
  CODE : Int
  ROOTFS : Int
  distinct : CODE ≠ ROOTFS
  BUSYBOX : CStr
  DOCKER_INIT : CStr
  VGUEST_DIR : CStr
  get_file_name : CStr → CStr

/-- What the host answers: the value the `k`-th call of `system` returns (counted from 0)
and whether `fopen` of the init file returns a stream. -/
structure Env where
  system_ret : Nat → Int
  fopen_ok : Bool

/-- A request `initrd_create` makes to the outside, in program order. -/
inductive Event where
  | create_directory (path : CStr)
  | system (cmd : CStr)
  | log_error (msg : CStr)
  | fopen (path : CStr)
  | fprintf (text : CStr)
  | fclose
  | printf (text : CStr)
  deriving DecidableEq

/-- A run of `initrd_create`: the requests made and the value returned; `ret = none` when the
run reached undefined behaviour (a `FILE *` that is NULL passed to `fprintf`, or a `strcat`
past the end of its buffer) and so never returned. -/
structure Run where
  trace : List Event
  ret : Option Int
  deriving DecidableEq

/-- The statement `if (system(commands) == -1) LOG_ERROR(fmt, commands);` given the value `r` that
`system` returned. -/
def system_logged (r : Int) (fmt : CStr) (commands : CStr) : List Event :=
  Event.system commands ::
    (if r = -1 then [Event.log_error (format fmt [Arg.str commands])] else [])

/-- The statements `file = fopen(init, "w"); if (file == NULL) LOG_ERROR(...);` given whether
`fopen` returned a stream. -/
def fopen_logged (ok : Bool) (init : CStr) : List Event :=
  Event.fopen init ::
    (if ok then []
     else [Event.log_error (format (lit "Failed to create init file: %s") [Arg.str init])])

/-! ## The string literals of the source -/

/-- Format of the staging command (lines 42-49; adjacent literals concatenated). -/
def staging_fmt : CStr :=
  lit "cp %s %s && " ++
  lit "cp %s %s/ && " ++
  lit "ln -s busybox %s/sh && " ++
  lit "cp %s %s/ && " ++
  lit "cp %s %s/ && " ++
  lit "cp -r /home/a/shelter/default_component/pgms %s/ && " ++
  lit "cp /home/a/shelter/default_component/qemu_init.sh %s/ && " ++
  lit "chmod +x %s/qemu_init.sh"

/-- Initial content of `init_script` (lines 81-88). -/
def preamble : CStr :=
  lit "#!/bin/sh\n" ++
  lit "# 初始化网络\n" ++
  lit "busybox ip addr add 192.168.50.10/24 dev eth0\n" ++
  lit "busybox ip link set eth0 up\n" ++
  lit "busybox ip route add default via 192.168.50.1\n" ++
  lit "# 创建设备节点\n" ++
  lit "busybox mknod /dev/null c 1 3\n" ++
  lit "busybox chmod 666 /dev/null\n"

/-- The literal appended by `strcat` in `case CODE` (lines 96-110). -/
def code_fragment : CStr :=
  lit "# 挂载必要的文件系统\n" ++
  lit "busybox mkdir -p /proc /sys /dev /mnt\n" ++
  lit "busybox mount -t proc none /proc\n" ++
  lit "busybox mount -t sysfs none /sys\n" ++
  lit "busybox mount -t devtmpfs none /dev\n" ++
  lit "\n" ++
  lit "# 如果有 vda 磁盘，设置 readahead 并挂载\n" ++
  lit "if [ -b /dev/vda ]; then\n" ++
  lit "  busybox blockdev --setra 4096 /dev/vda || true\n" ++
  lit "  busybox mount -t ext4 -o noatime,nodiratime,commit=30 /dev/vda /mnt || true\n" ++
  lit "fi\n" ++
  lit "\n" ++
  lit "# 启动vsock客户端并进入shell\n" ++
  lit "/bin/vguest_vsock\n" ++
  lit "exec /bin/sh\n"

/-- Format of the splitter command (line 120). -/
def splitter_fmt : CStr :=
  lit "split -b 300M %s/%s %s/rootfs_part_ && rm %s/%s && sed -i '2i cd %s' %s/docker_init"

/-- The format literal given to `snprintf` in `case ROOTFS` (lines 129-163). -/
def rootfs_fragment : CStr :=
  lit "# 创建目录并挂载proc和sysfs\n" ++
  lit "busybox mkdir -p /proc /sys /mnt/rootfs\n" ++
  lit "busybox mount -t proc none /proc\n" ++
  lit "busybox mount -t sysfs none /sys\n" ++
  lit "\n" ++
  lit "# 合并并解压rootfs\n" ++
  lit "busybox cat /bin/rootfs_part_* > /bin/rootfs.tar\n" ++
  lit "busybox rm /bin/rootfs_part_*\n" ++
  lit "busybox tar -xpf /bin/rootfs.tar -C /mnt/rootfs\n" ++
  lit "\n" ++
  lit "# 将 busybox 复制到 chroot 后的文件系统\n" ++
  lit "# 这样在chroot后也能访问和执行busybox\n" ++
  lit "busybox cp /bin/busybox /mnt/rootfs/bin/\n" ++
  lit "busybox chmod +x /mnt/rootfs/bin/busybox\n" ++
  lit "\n" ++
  lit "# 在chroot环境中为busybox创建符号链接\n" ++
  lit "busybox chroot /mnt/rootfs /bin/busybox --install -s /bin\n" ++
  lit "\n" ++
  lit "# 将 qemu_init.sh 复制到 chroot 后的文件系统\n" ++
  lit "# 这样在chroot后也能访问和执行这个脚本\n" ++
  lit "busybox cp /bin/qemu_init.sh /mnt/rootfs/bin/\n" ++
  lit "busybox chmod +x /mnt/rootfs/bin/qemu_init.sh\n" ++
  lit "\n" ++
  lit "# 挂载dev文件系统并创建设备\n" ++
  lit "busybox mount -t tmpfs none /mnt/rootfs/dev\n" ++
  lit "busybox mdev -s\n" ++
  lit "\n" ++
  lit "# 移动必要的文件到chroot环境\n" ++
  lit "busybox mv /bin/vguest_vsock /mnt/rootfs/bin/\n" ++
  lit "busybox chmod +x /mnt/rootfs/bin/vguest_vsock\n" ++
  lit "busybox mv /bin/docker_init /mnt/rootfs/bin/\n" ++
  lit "busybox chmod +x /mnt/rootfs/bin/docker_init\n" ++
  lit "\n" ++
  lit "# 切换到新的根文件系统并启动docker_init\n" ++
  lit "busybox chroot /mnt/rootfs /bin/docker_init\n"

/-- Format of the packaging command (lines 177-179; adjacent literals concatenated). -/
def packaging_fmt : CStr :=
  lit "sudo chmod +x %s && " ++
  lit "cd build/%s/initrd && " ++
  lit "find . | cpio -o -H newc | gzip > ../initrd.img"

/-! ## The function -/

/-- Line 28: content of `path` after the first `snprintf`. -/
def build_path (tag : CStr) : CStr := snprintf 1024 (lit "build/%s") [Arg.str tag]

/-- Line 31: content of `path` after the second `snprintf`. -/
def initrd_path (tag : CStr) : CStr := snprintf 1024 (lit "build/%s/initrd") [Arg.str tag]

/-- Line 34: content of `bin_path`. -/
def bin_path_of (path : CStr) : CStr := snprintf 1024 (lit "%s/bin") [Arg.str path]

/-- Lines 41-58: content of `commands` for the staging command. -/
def staging_command (cfg : Config) (bin_path file_name : CStr) : CStr :=
  snprintf 4096 staging_fmt
    [Arg.str cfg.BUSYBOX, Arg.str bin_path,
     Arg.str cfg.DOCKER_INIT, Arg.str bin_path,
     Arg.str bin_path,
     Arg.str cfg.VGUEST_DIR, Arg.str bin_path,
     Arg.str file_name, Arg.str bin_path,
     Arg.str bin_path,
     Arg.str bin_path,
     Arg.str bin_path]

/-- Line 66: content of `commands` for the attestation-agent copy. -/
def aa_command (aa_path bin_path : CStr) : CStr :=
  snprintf 4096 (lit "cp %s %s/") [Arg.str aa_path, Arg.str bin_path]

/-- Line 74: content of `init`. -/
def init_path (path : CStr) : CStr := snprintf 512 (lit "%s/init") [Arg.str path]

/-- Lines 116-121: content of `commands` for the splitter command. -/
def splitter_command (cfg : Config) (bin_path file_name work_path : CStr) : CStr :=
  snprintf 4096 splitter_fmt
    [Arg.str bin_path, Arg.str (cfg.get_file_name file_name), Arg.str bin_path,
     Arg.str bin_path, Arg.str (cfg.get_file_name file_name),
     Arg.str work_path, Arg.str bin_path]

/-- Lines 176-180: content of `commands` for the packaging command. -/
def packaging_command (init tag : CStr) : CStr :=
  snprintf 4096 packaging_fmt [Arg.str init, Arg.str tag]

/-- The `switch (mode)` statement (lines 91-169): the requests it makes, the number of `system`
calls made so far (`n` before it), and the content of `init_script` after it (`none`: the
`strcat` wrote past the buffer). -/
def mode_switch (cfg : Config) (env : Env) (n : Nat) (bin_path file_name : CStr) (mode : Int)
    (work_path : CStr) (init_script : CStr) : List Event × Nat × Option CStr :=
  if mode = cfg.CODE then
    ([], n, strcat 8192 init_script code_fragment)
  else if mode = cfg.ROOTFS then
    (system_logged (env.system_ret n) (lit "Failed to exec commands: %s")
       (splitter_command cfg bin_path file_name work_path),
     n + 1,
     some (init_script ++ snprintf (8192 - init_script.length) rootfs_fragment []))
  else
    ([Event.log_error (format (lit "Unknown mode: %d") [Arg.int mode])], n, some init_script)

/-- Lines 65-70: the optional copy of the attestation agent (`none` is the NULL pointer): the
requests made and the number of `system` calls made so far. -/
def aa_copy (env : Env) (aa_path : Option CStr) (bin_path : CStr) : List Event × Nat :=
  match aa_path with
  | some p =>
    (system_logged (env.system_ret 1) (lit "Failed to copy attestation agent: %s")
       (aa_command p bin_path), 2)
  | none => ([], 1)

/-- The function `initrd_create(tag, file_name, mode, work_path, aa_path)`. -/
def initrd_create (cfg : Config) (env : Env) (tag file_name : CStr) (mode : Int)
    (work_path : CStr) (aa_path : Option CStr) : Run :=
  -- lines 28-35
  let path := initrd_path tag
  let bin_path := bin_path_of path
  let t_dirs := [Event.create_directory (build_path tag), Event.create_directory path,
    Event.create_directory bin_path]
  -- lines 41-62
  let t_stage := system_logged (env.system_ret 0) (lit "Failed to exec commands: %s")
    (staging_command cfg bin_path file_name)
  -- lines 65-70
  let aa := aa_copy env aa_path bin_path
  -- lines 73-78
  let init := init_path path
  let t_open := fopen_logged env.fopen_ok init
  -- lines 81-169
  let sw := mode_switch cfg env aa.2 bin_path file_name mode work_path preamble
  let before := t_dirs ++ t_stage ++ aa.1 ++ t_open ++ sw.1
  match sw.2.2 with
  | none => { trace := before, ret := none }
  | some init_script =>
    -- lines 172-173: `file` is NULL when `fopen` failed
    if env.fopen_ok then
      let t_write := [Event.fprintf (format (lit "%s") [Arg.str init_script]), Event.fclose]
      -- lines 176-184
      let t_pack := system_logged (env.system_ret sw.2.1) (lit "Failed to exec commands: %s")
        (packaging_command init tag)
      -- lines 186-187
      let t_end := [Event.printf
        (format (lit "initrd created successfully for tag: %s\n") [Arg.str tag])]
      { trace := before ++ t_write ++ t_pack ++ t_end, ret := some 0 }
    else
      { trace := before, ret := none }

/-! ## Observations on a run -/

/-- The commands handed to `system`, in order. -/
def system_cmds : List Event → List CStr
  | [] => []
  | Event.system c :: es => c :: system_cmds es
  | _ :: es => system_cmds es

/-- The texts written to the init file, in order. -/
def written : List Event → List CStr
  | [] => []
  | Event.fprintf t :: es => t :: written es
  | _ :: es => written es

/-- The error messages logged, in order. -/
def logged : List Event → List CStr
  | [] => []
  | Event.log_error m :: es => m :: logged es
  | _ :: es => logged es

/-- The directories asked for, in order. -/
def directories : List Event → List CStr
  | [] => []
  | Event.create_directory p :: es => p :: directories es
  | _ :: es => directories es

/-! ## The texts the requests are compared with -/

/-- The directory `build/<tag>/initrd`. -/
def initrd_dir (tag : CStr) : CStr := lit "build/" ++ tag ++ lit "/initrd"

/-- The directory `build/<tag>/initrd/bin`. -/
def bin_dir (tag : CStr) : CStr := lit "build/" ++ tag ++ lit "/initrd/bin"

/-- The file `build/<tag>/initrd/init`. -/
def init_file (tag : CStr) : CStr := lit "build/" ++ tag ++ lit "/initrd/init"

/-- The commands of a shell AND-list, joined by ` && `. -/
def and_list : List CStr → CStr
  | [] => []
  | [c] => c
  | c :: cs => c ++ lit " && " ++ and_list cs

/-- The eight commands of the staging command, for a `bin` directory and a source file. -/
def staging_steps (cfg : Config) (bin file_name : CStr) : List CStr :=
  [lit "cp " ++ cfg.BUSYBOX ++ lit " " ++ bin,
   lit "cp " ++ cfg.DOCKER_INIT ++ lit " " ++ bin ++ lit "/",
   lit "ln -s busybox " ++ bin ++ lit "/sh",
   lit "cp " ++ cfg.VGUEST_DIR ++ lit " " ++ bin ++ lit "/",
   lit "cp " ++ file_name ++ lit " " ++ bin ++ lit "/",
   lit "cp -r /home/a/shelter/default_component/pgms " ++ bin ++ lit "/",
   lit "cp /home/a/shelter/default_component/qemu_init.sh " ++ bin ++ lit "/",
   lit "chmod +x " ++ bin ++ lit "/qemu_init.sh"]

/-- The three commands of the splitter command, for a `bin` directory, the name of the staged
file and the work path. -/
def splitter_steps (bin name work_path : CStr) : List CStr :=
  [lit "split -b 300M " ++ bin ++ lit "/" ++ name ++ lit " " ++ bin ++ lit "/rootfs_part_",
   lit "rm " ++ bin ++ lit "/" ++ name,
   lit "sed -i '2i cd " ++ work_path ++ lit "' " ++ bin ++ lit "/docker_init"]

/-- The three commands of the packaging command, for the init file and the tag. -/
def packaging_steps (init tag : CStr) : List CStr :=
  [lit "sudo chmod +x " ++ init,
   lit "cd " ++ (lit "build/" ++ tag ++ lit "/initrd"),
   lit "find . | cpio -o -H newc | gzip > ../initrd.img"]

/-- Whether `hay` starts with `needle`. -/
def starts_with : CStr → CStr → Bool
  | [], _ => true
  | _ :: _, [] => false
  | a :: as, b :: bs => decide (a = b) && starts_with as bs

/-- Whether `needle` occurs in `hay` as a contiguous run of bytes. -/
def occurs (needle : CStr) : CStr → Bool
  | [] => starts_with needle []
  | b :: bs => starts_with needle (b :: bs) || occurs needle bs

/-- The lines of a text: the runs of bytes between newlines (byte 10). -/
def lines : CStr → List CStr
  | [] => [[]]
  | b :: rest =>
    if b = 10 then [] :: lines rest
    else
      match lines rest with
      | l :: ls => (b :: l) :: ls
      | [] => [[b]]

/-- The content of `init_script` after the `switch`, by mode. -/
def script_of (cfg : Config) (mode : Int) : CStr :=
  if mode = cfg.CODE then preamble ++ code_fragment
  else if mode = cfg.ROOTFS then preamble ++ rootfs_fragment
  else preamble

/-- The commands of the optional attestation-agent copy. -/
def aa_cmds (aa_path : Option CStr) (bin_path : CStr) : List CStr :=
  match aa_path with
  | some p => [aa_command p bin_path]
  | none => []

/-- The commands of the `switch`: the splitter command in `case ROOTFS`, none otherwise. -/
def split_cmds (cfg : Config) (bin_path file_name : CStr) (mode : Int) (work_path : CStr) :
    List CStr :=
  if mode = cfg.CODE then []
  else if mode = cfg.ROOTFS then [splitter_command cfg bin_path file_name work_path]
  else []

/-- The requests `initrd_create` makes before it writes the init script (lines 28-169). -/
def before_write (cfg : Config) (env : Env) (tag file_name : CStr) (mode : Int)
    (work_path : CStr) (aa_path : Option CStr) : List Event :=
  [Event.create_directory (build_path tag), Event.create_directory (initrd_path tag),
    Event.create_directory (bin_path_of (initrd_path tag))] ++
  system_logged (env.system_ret 0) (lit "Failed to exec commands: %s")
    (staging_command cfg (bin_path_of (initrd_path tag)) file_name) ++
  (aa_copy env aa_path (bin_path_of (initrd_path tag))).1 ++
  fopen_logged env.fopen_ok (init_path (initrd_path tag)) ++
  (mode_switch cfg env (aa_copy env aa_path (bin_path_of (initrd_path tag))).2
    (bin_path_of (initrd_path tag)) file_name mode work_path preamble).1

/-- The requests `initrd_create` makes once the init script is written (lines 176-186), `n` being
the number of `system` calls made before. -/
def after_write (env : Env) (n : Nat) (tag : CStr) : List Event :=
  system_logged (env.system_ret n) (lit "Failed to exec commands: %s")
    (packaging_command (init_path (initrd_path tag)) tag) ++
  [Event.printf (format (lit "initrd created successfully for tag: %s\n") [Arg.str tag])]

/-! ## Concrete inputs -/

/-- Modelled from the spec: `get_file_name` of `tools.h` is not in the source file; the spec
describes it as the utility that "extracts a base name from a full path".  Here: the bytes after
the last `/` (byte 47). -/
def base_name (p : CStr) : CStr := (p.reverse.takeWhile (fun b => b != 47)).reverse

/-- A configuration for the concrete runs: `CODE = 0`, `ROOTFS = 1`, and helper paths. -/
def example_config : Config where
  CODE := 0
  ROOTFS := 1
  distinct := by decide
  BUSYBOX := lit "/opt/busybox"
  DOCKER_INIT := lit "/opt/docker_init"
  VGUEST_DIR := lit "/opt/vguest_vsock"
  get_file_name := base_name

/-- Every `system` call returns 0 and the init file opens. -/
def env_ok : Env := { system_ret := fun _ => 0, fopen_ok := true }

/-- Every `system` call returns 0 and `fopen` returns NULL. -/
def env_fopen_fails : Env := { system_ret := fun _ => 0, fopen_ok := false }

theorem parse_build : parseFmt (lit "build/%s") = [Piece.text (lit "build/"), Piece.s] := by
  decide!

theorem parse_initrd : parseFmt (lit "build/%s/initrd") =
    [Piece.text (lit "build/"), Piece.s, Piece.text (lit "/initrd")] := by
  decide!

theorem parse_bin : parseFmt (lit "%s/bin") = [Piece.s, Piece.text (lit "/bin")] := by
  decide!

theorem parse_init : parseFmt (lit "%s/init") = [Piece.s, Piece.text (lit "/init")] := by
  decide!

theorem parse_percent_s : parseFmt (lit "%s") = [Piece.s] := by
  decide!

theorem parse_unknown : parseFmt (lit "Unknown mode: %d") =
    [Piece.text (lit "Unknown mode: "), Piece.d] := by
  decide!

theorem parse_staging : parseFmt staging_fmt =
    [Piece.text (lit "cp "), Piece.s, Piece.text (lit " "), Piece.s,
     Piece.text (lit " && " ++ lit "cp "), Piece.s, Piece.text (lit " "), Piece.s,
     Piece.text (lit "/" ++ lit " && " ++ lit "ln -s busybox "), Piece.s,
     Piece.text (lit "/sh" ++ lit " && " ++ lit "cp "), Piece.s, Piece.text (lit " "), Piece.s,
     Piece.text (lit "/" ++ lit " && " ++ lit "cp "), Piece.s, Piece.text (lit " "), Piece.s,
     Piece.text (lit "/" ++ lit " && " ++ lit "cp -r /home/a/shelter/default_component/pgms "),
     Piece.s,
     Piece.text (lit "/" ++ lit " && " ++
       lit "cp /home/a/shelter/default_component/qemu_init.sh "), Piece.s,
     Piece.text (lit "/" ++ lit " && " ++ lit "chmod +x "), Piece.s,
     Piece.text (lit "/qemu_init.sh")] := by
  decide!

theorem parse_splitter : parseFmt splitter_fmt =
    [Piece.text (lit "split -b 300M "), Piece.s, Piece.text (lit "/"), Piece.s,
     Piece.text (lit " "), Piece.s,
     Piece.text (lit "/rootfs_part_" ++ lit " && " ++ lit "rm "), Piece.s,
     Piece.text (lit "/"), Piece.s,
     Piece.text (lit " && " ++ lit "sed -i '2i cd "), Piece.s,
     Piece.text (lit "' "), Piece.s, Piece.text (lit "/docker_init")] := by
  decide!

theorem parse_packaging : parseFmt packaging_fmt =
    [Piece.text (lit "sudo chmod +x "), Piece.s,
     Piece.text (lit " && " ++ lit "cd " ++ lit "build/"), Piece.s,
     Piece.text (lit "/initrd" ++ lit " && " ++
       lit "find . | cpio -o -H newc | gzip > ../initrd.img")] := by
  decide!

/-! ## Formatting with the arguments of the source -/

theorem format_build (tag : CStr) :
    format (lit "build/%s") [Arg.str tag] = lit "build/" ++ tag := by
  rw [format, parse_build]
  simp only [render, List.append_nil]

theorem format_initrd (tag : CStr) :
    format (lit "build/%s/initrd") [Arg.str tag] = lit "build/" ++ tag ++ lit "/initrd" := by
  rw [format, parse_initrd]
  simp only [render, List.append_nil, List.append_assoc]

theorem format_bin (path : CStr) : format (lit "%s/bin") [Arg.str path] = path ++ lit "/bin" := by
  rw [format, parse_bin]
  simp only [render, List.append_nil]

theorem format_init (path : CStr) :
    format (lit "%s/init") [Arg.str path] = path ++ lit "/init" := by
  rw [format, parse_init]
  simp only [render, List.append_nil]

theorem format_percent_s (x : CStr) : format (lit "%s") [Arg.str x] = x := by
  rw [format, parse_percent_s]
  simp only [render, List.append_nil]

theorem format_unknown (mode : Int) :
    format (lit "Unknown mode: %d") [Arg.int mode] = lit "Unknown mode: " ++ decimal mode := by
  rw [format, parse_unknown]
  simp only [render, List.append_nil]

theorem format_staging (cfg : Config) (b f : CStr) :
    format staging_fmt
      [Arg.str cfg.BUSYBOX, Arg.str b, Arg.str cfg.DOCKER_INIT, Arg.str b, Arg.str b,
       Arg.str cfg.VGUEST_DIR, Arg.str b, Arg.str f, Arg.str b, Arg.str b, Arg.str b, Arg.str b]
      = and_list (staging_steps cfg b f) := by
  rw [format, parse_staging]
  simp only [render, and_list, staging_steps, List.append_nil, List.append_assoc]

theorem format_splitter (b name w : CStr) :
    format splitter_fmt
      [Arg.str b, Arg.str name, Arg.str b, Arg.str b, Arg.str name, Arg.str w, Arg.str b]
      = and_list (splitter_steps b name w) := by
  rw [format, parse_splitter]
  simp only [render, and_list, splitter_steps, List.append_nil, List.append_assoc]

theorem format_packaging (init tag : CStr) :
    format packaging_fmt [Arg.str init, Arg.str tag] = and_list (packaging_steps init tag) := by
  rw [format, parse_packaging]
  simp only [render, and_list, packaging_steps, List.append_nil, List.append_assoc]

theorem snprintf_fit (n : Nat) (fmt : CStr) (args : List Arg)
    (h : (format fmt args).length < n) : snprintf n fmt args = format fmt args := by
  unfold snprintf
  exact List.take_of_length_le (by omega)

/-! ## The script buffer -/

theorem strcat_code : strcat 8192 preamble code_fragment = some (preamble ++ code_fragment) := by
  decide!

theorem no_percent_rootfs : (37 : UInt8) ∉ rootfs_fragment := by
  decide!

theorem format_rootfs : format rootfs_fragment [] = rootfs_fragment := by
  decide!

theorem snprintf_rootfs :
    preamble ++ snprintf (8192 - preamble.length) rootfs_fragment [] =
      preamble ++ rootfs_fragment := by
  decide!

theorem mode_switch_code (cfg : Config) (env : Env) (n : Nat) (b f w : CStr) :
    mode_switch cfg env n b f cfg.CODE w preamble = ([], n, some (preamble ++ code_fragment)) := by
  simp only [mode_switch, if_true, strcat_code]

theorem mode_switch_rootfs (cfg : Config) (env : Env) (n : Nat) (b f w : CStr) :
    mode_switch cfg env n b f cfg.ROOTFS w preamble =
      (system_logged (env.system_ret n) (lit "Failed to exec commands: %s")
         (splitter_command cfg b f w), n + 1, some (preamble ++ rootfs_fragment)) := by
  have h : ¬ cfg.ROOTFS = cfg.CODE := fun e => cfg.distinct e.symm
  simp only [mode_switch, if_neg h, if_true, snprintf_rootfs]

theorem mode_switch_default (cfg : Config) (env : Env) (n : Nat) (b f w : CStr) (mode : Int)
    (h1 : mode ≠ cfg.CODE) (h2 : mode ≠ cfg.ROOTFS) :
    mode_switch cfg env n b f mode w preamble =
      ([Event.log_error (lit "Unknown mode: " ++ decimal mode)], n, some preamble) := by
  simp only [mode_switch, if_neg h1, if_neg h2, format_unknown]

theorem mode_switch_script (cfg : Config) (env : Env) (n : Nat) (b f w : CStr) (mode : Int) :
    (mode_switch cfg env n b f mode w preamble).2.2 = some (script_of cfg mode) := by
  by_cases h1 : mode = cfg.CODE
  · subst h1
    simp only [mode_switch_code, script_of, if_true]
  · by_cases h2 : mode = cfg.ROOTFS
    · subst h2
      simp only [mode_switch_rootfs, script_of, if_neg h1, if_true]
    · simp only [mode_switch_default cfg env n b f w mode h1 h2, script_of, if_neg h1, if_neg h2]

/-! ## Observations on traces -/

theorem system_cmds_append (a b : List Event) :
    system_cmds (a ++ b) = system_cmds a ++ system_cmds b := by
  induction a with
  | nil => rfl
  | cons e es ih => cases e <;> simp [system_cmds, ih]

theorem written_append (a b : List Event) : written (a ++ b) = written a ++ written b := by
  induction a with
  | nil => rfl
  | cons e es ih => cases e <;> simp [written, ih]

theorem logged_append (a b : List Event) : logged (a ++ b) = logged a ++ logged b := by
  induction a with
  | nil => rfl
  | cons e es ih => cases e <;> simp [logged, ih]

theorem system_cmds_system_logged (r : Int) (fmt c : CStr) :
    system_cmds (system_logged r fmt c) = [c] := by
  unfold system_logged
  split <;> rfl

theorem written_system_logged (r : Int) (fmt c : CStr) :
    written (system_logged r fmt c) = [] := by
  unfold system_logged
  split <;> rfl

theorem logged_system_logged (r : Int) (fmt c : CStr) :
    logged (system_logged r fmt c) = if r = -1 then [format fmt [Arg.str c]] else [] := by
  unfold system_logged
  split <;> rfl

theorem system_cmds_fopen_logged (ok : Bool) (init : CStr) :
    system_cmds (fopen_logged ok init) = [] := by
  cases ok <;> rfl

theorem written_fopen_logged (ok : Bool) (init : CStr) :
    written (fopen_logged ok init) = [] := by
  cases ok <;> rfl

theorem system_cmds_aa_copy (env : Env) (aa : Option CStr) (b : CStr) :
    system_cmds (aa_copy env aa b).1 = aa_cmds aa b := by
  cases aa with
  | none => rfl
  | some p => simp only [aa_copy, aa_cmds, system_cmds_system_logged]

theorem written_aa_copy (env : Env) (aa : Option CStr) (b : CStr) :
    written (aa_copy env aa b).1 = [] := by
  cases aa with
  | none => rfl
  | some p => simp only [aa_copy, written_system_logged]

theorem system_cmds_mode_switch (cfg : Config) (env : Env) (n : Nat) (b f w : CStr)
    (mode : Int) :
    system_cmds (mode_switch cfg env n b f mode w preamble).1 = split_cmds cfg b f mode w := by
  by_cases h1 : mode = cfg.CODE
  · subst h1
    simp only [mode_switch_code, split_cmds, if_true]
    rfl
  · by_cases h2 : mode = cfg.ROOTFS
    · subst h2
      simp only [mode_switch_rootfs, split_cmds, if_neg h1, if_true, system_cmds_system_logged]
    · simp only [mode_switch_default cfg env n b f w mode h1 h2, split_cmds, if_neg h1, if_neg h2]
      rfl

theorem written_mode_switch (cfg : Config) (env : Env) (n : Nat) (b f w : CStr) (mode : Int) :
    written (mode_switch cfg env n b f mode w preamble).1 = [] := by
  by_cases h1 : mode = cfg.CODE
  · subst h1
    simp only [mode_switch_code]
    rfl
  · by_cases h2 : mode = cfg.ROOTFS
    · subst h2
      simp only [mode_switch_rootfs, written_system_logged]
    · simp only [mode_switch_default cfg env n b f w mode h1 h2]
      rfl

theorem system_cmds_dirs (a b c : CStr) :
    system_cmds [Event.create_directory a, Event.create_directory b,
      Event.create_directory c] = [] := rfl

theorem written_dirs (a b c : CStr) :
    written [Event.create_directory a, Event.create_directory b,
      Event.create_directory c] = [] := rfl

theorem system_cmds_write (t : CStr) : system_cmds [Event.fprintf t, Event.fclose] = [] := rfl

theorem written_write (t : CStr) : written [Event.fprintf t, Event.fclose] = [t] := rfl

theorem system_cmds_printf (t : CStr) : system_cmds [Event.printf t] = [] := rfl

theorem written_printf (t : CStr) : written [Event.printf t] = [] := rfl

/-! ## The run, by whether the init file opened -/

theorem initrd_create_opened (cfg : Config) (env : Env) (tag f : CStr) (mode : Int) (w : CStr)
    (aa : Option CStr) (h : env.fopen_ok = true) :
    initrd_create cfg env tag f mode w aa =
      { trace := before_write cfg env tag f mode w aa ++
          [Event.fprintf (script_of cfg mode), Event.fclose] ++
          after_write env (mode_switch cfg env (aa_copy env aa (bin_path_of (initrd_path tag))).2
            (bin_path_of (initrd_path tag)) f mode w preamble).2.1 tag,
        ret := some 0 } := by
  simp only [initrd_create, mode_switch_script, h, if_true, format_percent_s, before_write,
    after_write, List.append_assoc]

theorem initrd_create_not_opened (cfg : Config) (env : Env) (tag f : CStr) (mode : Int)
    (w : CStr) (aa : Option CStr) (h : env.fopen_ok = false) :
    initrd_create cfg env tag f mode w aa =
      { trace := before_write cfg env tag f mode w aa, ret := none } := by
  simp only [initrd_create, mode_switch_script, h, before_write, List.append_assoc]
  rfl

theorem system_cmds_before (cfg : Config) (env : Env) (tag f : CStr) (mode : Int) (w : CStr)
    (aa : Option CStr) :
    system_cmds (before_write cfg env tag f mode w aa) =
      staging_command cfg (bin_path_of (initrd_path tag)) f ::
        (aa_cmds aa (bin_path_of (initrd_path tag)) ++
          split_cmds cfg (bin_path_of (initrd_path tag)) f mode w) := by
  simp only [before_write, system_cmds_append, system_cmds_system_logged, system_cmds_aa_copy,
    system_cmds_fopen_logged, system_cmds_mode_switch, system_cmds_dirs, List.nil_append,
    List.append_nil, List.append_assoc]
  rfl

theorem written_before (cfg : Config) (env : Env) (tag f : CStr) (mode : Int) (w : CStr)
    (aa : Option CStr) : written (before_write cfg env tag f mode w aa) = [] := by
  simp only [before_write, written_append, written_system_logged, written_aa_copy,
    written_fopen_logged, written_mode_switch, written_dirs, List.append_nil]

theorem system_cmds_after (env : Env) (n : Nat) (tag : CStr) :
    system_cmds (after_write env n tag) = [packaging_command (init_path (initrd_path tag)) tag] := by
  simp only [after_write, system_cmds_append, system_cmds_system_logged, system_cmds_printf,
    List.append_nil]

theorem system_cmds_run (cfg : Config) (env : Env) (tag f : CStr) (mode : Int) (w : CStr)
    (aa : Option CStr) :
    system_cmds (initrd_create cfg env tag f mode w aa).trace =
      staging_command cfg (bin_path_of (initrd_path tag)) f ::
        (aa_cmds aa (bin_path_of (initrd_path tag)) ++
          split_cmds cfg (bin_path_of (initrd_path tag)) f mode w ++
          (if env.fopen_ok then [packaging_command (init_path (initrd_path tag)) tag] else [])) := by
  cases h : env.fopen_ok
  · simp only [initrd_create_not_opened cfg env tag f mode w aa h, system_cmds_before,
      List.append_nil, Bool.false_eq_true, if_false]
  · simp only [initrd_create_opened cfg env tag f mode w aa h, system_cmds_append,
      system_cmds_before, system_cmds_after, system_cmds_write, List.nil_append, if_true,
      List.append_nil]
    simp only [List.cons_append, List.append_assoc]

theorem written_run (cfg : Config) (env : Env) (tag f : CStr) (mode : Int) (w : CStr)
    (aa : Option CStr) :
    written (initrd_create cfg env tag f mode w aa).trace =
      if env.fopen_ok then [script_of cfg mode] else [] := by
  cases h : env.fopen_ok
  · simp only [initrd_create_not_opened cfg env tag f mode w aa h, written_before,
      Bool.false_eq_true, if_false]
  · simp only [initrd_create_opened cfg env tag f mode w aa h, written_append, written_before,
      after_write, written_system_logged, written_write, written_printf, List.nil_append,
      List.append_nil, if_true]

/-! ## Paths that fit their buffers -/

theorem lit_initrd_bin : lit "/initrd/bin" = lit "/initrd" ++ lit "/bin" := by
  decide!

theorem lit_initrd_init : lit "/initrd/init" = lit "/initrd" ++ lit "/init" := by
  decide!

theorem initrd_path_fit (tag : CStr) (h : (initrd_dir tag).length < 1024) :
    initrd_path tag = initrd_dir tag := by
  unfold initrd_path
  rw [snprintf_fit _ _ _ (by rw [format_initrd]; exact h), format_initrd]
  rfl

theorem length_initrd_le_bin (tag : CStr) : (initrd_dir tag).length ≤ (bin_dir tag).length := by
  simp only [initrd_dir, bin_dir, lit_initrd_bin, List.length_append]
  omega

theorem length_initrd_le_init (tag : CStr) :
    (initrd_dir tag).length ≤ (init_file tag).length := by
  simp only [initrd_dir, init_file, lit_initrd_init, List.length_append]
  omega

theorem bin_path_fit (tag : CStr) (h : (bin_dir tag).length < 1024) :
    bin_path_of (initrd_path tag) = bin_dir tag := by
  have h0 := length_initrd_le_bin tag
  rw [initrd_path_fit tag (by omega)]
  have e : initrd_dir tag ++ lit "/bin" = bin_dir tag := by
    simp only [initrd_dir, bin_dir, lit_initrd_bin, List.append_assoc]
  unfold bin_path_of
  rw [snprintf_fit _ _ _ (by rw [format_bin, e]; exact h), format_bin, e]

theorem init_path_fit (tag : CStr) (h : (init_file tag).length < 512) :
    init_path (initrd_path tag) = init_file tag := by
  have h0 := length_initrd_le_init tag
  rw [initrd_path_fit tag (by omega)]
  have e : initrd_dir tag ++ lit "/init" = init_file tag := by
    simp only [initrd_dir, init_file, lit_initrd_init, List.append_assoc]
  unfold init_path
  rw [snprintf_fit _ _ _ (by rw [format_init, e]; exact h), format_init, e]

theorem build_path_fit (tag : CStr) (h : (lit "build/" ++ tag).length < 1024) :
    build_path tag = lit "build/" ++ tag := by
  unfold build_path
  rw [snprintf_fit _ _ _ (by rw [format_build]; exact h), format_build]

theorem staging_command_fit (cfg : Config) (b f : CStr)
    (h : (and_list (staging_steps cfg b f)).length < 4096) :
    staging_command cfg b f = and_list (staging_steps cfg b f) := by
  unfold staging_command
  rw [snprintf_fit _ _ _ (by rw [format_staging]; exact h), format_staging]

theorem splitter_command_fit (cfg : Config) (b f w : CStr)
    (h : (and_list (splitter_steps b (cfg.get_file_name f) w)).length < 4096) :
    splitter_command cfg b f w = and_list (splitter_steps b (cfg.get_file_name f) w) := by
  unfold splitter_command
  rw [snprintf_fit _ _ _ (by rw [format_splitter]; exact h), format_splitter]

theorem packaging_length (init tag : CStr) :
    (and_list (packaging_steps init tag)).length = init.length + tag.length + 85 := by
  have h1 : (lit "sudo chmod +x ").length = 14 := by decide!
  have h2 : (lit " && ").length = 4 := by decide!
  have h3 : (lit "cd ").length = 3 := by decide!
  have h4 : (lit "build/").length = 6 := by decide!
  have h5 : (lit "/initrd").length = 7 := by decide!
  have h6 : (lit "find . | cpio -o -H newc | gzip > ../initrd.img").length = 47 := by decide!
  simp only [and_list, packaging_steps, List.length_append, h1, h2, h3, h4, h5, h6]
  omega

theorem packaging_command_fit (tag : CStr) (h : (init_file tag).length < 512) :
    packaging_command (init_path (initrd_path tag)) tag =
      and_list (packaging_steps (init_file tag) tag) := by
  rw [init_path_fit tag h]
  have hl := packaging_length (init_file tag) tag
  have ht : tag.length ≤ (init_file tag).length := by
    simp only [init_file, List.length_append]
    omega
  unfold packaging_command
  rw [snprintf_fit _ _ _ (by rw [format_packaging]; omega), format_packaging]

/-! ## Occurrence of a byte run -/

theorem starts_with_iff (n h : CStr) : starts_with n h = true ↔ ∃ s, h = n ++ s := by
  induction n generalizing h with
  | nil => simp [starts_with]
  | cons a as ih =>
    cases h with
    | nil => simp [starts_with]
    | cons b bs =>
      simp only [starts_with, Bool.and_eq_true, decide_eq_true_eq, ih, List.cons_append,
        List.cons.injEq]
      constructor
      · rintro ⟨rfl, s, rfl⟩
        exact ⟨s, rfl, rfl⟩
      · rintro ⟨s, rfl, rfl⟩
        exact ⟨rfl, s, rfl⟩

theorem occurs_iff (n h : CStr) : occurs n h = true ↔ ∃ p s, h = p ++ n ++ s := by
  induction h with
  | nil =>
    simp only [occurs, starts_with_iff]
    constructor
    · rintro ⟨s, hs⟩
      exact ⟨[], s, by simpa using hs⟩
    · rintro ⟨p, s, hs⟩
      have hp : p = [] ∧ n = [] ∧ s = [] := by simpa [List.append_eq_nil] using hs.symm
      obtain ⟨_, rfl, rfl⟩ := hp
      exact ⟨[], rfl⟩
  | cons b bs ih =>
    simp only [occurs, Bool.or_eq_true, starts_with_iff, ih]
    constructor
    · rintro (⟨s, hs⟩ | ⟨p, s, hs⟩)
      · exact ⟨[], s, by simpa using hs⟩
      · exact ⟨b :: p, s, by simp [hs]⟩
    · rintro ⟨p, s, hs⟩
      cases p with
      | nil => exact Or.inl ⟨s, by simpa using hs⟩
      | cons c p =>
        simp only [List.cons_append, List.cons.injEq] at hs
        exact Or.inr ⟨p, s, hs.2⟩

/-! ## Membership in the trace -/

theorem mem_logged (m : CStr) (tr : List Event) (h : Event.log_error m ∈ tr) : m ∈ logged tr := by
  induction tr with
  | nil => simp at h
  | cons e es ih =>
    rcases List.mem_cons.mp h with rfl | h'
    · simp [logged]
    · cases e <;> simp [logged, ih h']

theorem fopen_mem_before (cfg : Config) (env : Env) (tag f : CStr) (mode : Int) (w : CStr)
    (aa : Option CStr) :
    Event.fopen (init_path (initrd_path tag)) ∈ before_write cfg env tag f mode w aa := by
  unfold before_write
  apply List.mem_append_left
  apply List.mem_append_right
  unfold fopen_logged
  exact List.mem_cons_self _ _

theorem unknown_mem_before (cfg : Config) (env : Env) (tag f : CStr) (mode : Int) (w : CStr)
    (aa : Option CStr) (h1 : mode ≠ cfg.CODE) (h2 : mode ≠ cfg.ROOTFS) :
    Event.log_error (lit "Unknown mode: " ++ decimal mode) ∈
      before_write cfg env tag f mode w aa := by
  unfold before_write
  apply List.mem_append_right
  rw [mode_switch_default cfg env _ _ f w mode h1 h2]
  exact List.mem_cons_self _ _

theorem trace_start (cfg : Config) (env : Env) (tag f : CStr) (mode : Int) (w : CStr)
    (aa : Option CStr) :
    ∃ rest, (initrd_create cfg env tag f mode w aa).trace =
      [Event.create_directory (build_path tag), Event.create_directory (initrd_path tag),
        Event.create_directory (bin_path_of (initrd_path tag))] ++
      system_logged (env.system_ret 0) (lit "Failed to exec commands: %s")
        (staging_command cfg (bin_path_of (initrd_path tag)) f) ++ rest ∧
      Event.fopen (init_path (initrd_path tag)) ∈ rest := by
  have hmem : Event.fopen (init_path (initrd_path tag)) ∈
      (aa_copy env aa (bin_path_of (initrd_path tag))).1 ++
      fopen_logged env.fopen_ok (init_path (initrd_path tag)) ++
      (mode_switch cfg env (aa_copy env aa (bin_path_of (initrd_path tag))).2
        (bin_path_of (initrd_path tag)) f mode w preamble).1 := by
    apply List.mem_append_left
    apply List.mem_append_right
    unfold fopen_logged
    exact List.mem_cons_self _ _
  cases h : env.fopen_ok
  · refine ⟨_, ?_, h ▸ hmem⟩
    rw [initrd_create_not_opened cfg env tag f mode w aa h]
    simp only [before_write, h, List.append_assoc]
  · refine ⟨_ ++ ([Event.fprintf (script_of cfg mode), Event.fclose] ++ after_write env
      (mode_switch cfg env (aa_copy env aa (bin_path_of (initrd_path tag))).2
        (bin_path_of (initrd_path tag)) f mode w preamble).2.1 tag), ?_,
      List.mem_append_left _ (h ▸ hmem)⟩
    rw [initrd_create_opened cfg env tag f mode w aa h]
    simp only [before_write, h, List.append_assoc]

theorem system_cmds_last (cfg : Config) (env : Env) (tag f : CStr) (mode : Int) (w : CStr)
    (aa : Option CStr) (h : env.fopen_ok = true) :
    (system_cmds (initrd_create cfg env tag f mode w aa).trace).getLast? =
      some (packaging_command (init_path (initrd_path tag)) tag) := by
  have e : system_cmds (initrd_create cfg env tag f mode w aa).trace =
      (staging_command cfg (bin_path_of (initrd_path tag)) f ::
        (aa_cmds aa (bin_path_of (initrd_path tag)) ++
          split_cmds cfg (bin_path_of (initrd_path tag)) f mode w)) ++
        [packaging_command (init_path (initrd_path tag)) tag] := by
    rw [system_cmds_run, h]
    simp only [if_true, List.cons_append, List.append_assoc]
  rw [e]
  exact List.getLast?_concat _

/-! ## Further facts on the commands -/

/-- C1, as stated, fails in mode CODE: the script written there contains the line
`busybox mount -t proc none /proc`, which is a line of the ROOTFS-mode fragment. -/
theorem C1_counterexample :
    written (initrd_create example_config env_ok (lit "t1") (lit "/tmp/agent.bin")
      example_config.CODE (lit "/app") none).trace = [preamble ++ code_fragment] ∧
    lit "busybox mount -t proc none /proc" ∈ lines rootfs_fragment ∧
    lit "busybox mount -t proc none /proc" ∈ lines (preamble ++ code_fragment) := by
  decide!

/-- C1, amended: in mode CODE the text written to the init file is the preamble immediately followed by
the CODE fragment (which ends in `/bin/vguest_vsock` then `exec /bin/sh`); it contains neither
`rootfs_part_` nor `chroot`, and no line that belongs only to the ROOTFS fragment.  In mode ROOTFS
it is the preamble followed by the ROOTFS fragment, which holds no `%` and so comes out of
`snprintf` unchanged; it contains neither `exec /bin/sh` nor `/dev/vda`, and no line that belongs
only to the CODE fragment.  The text is written once, when the init file opened. -/
theorem C1_init_script_by_mode (cfg : Config) (env : Env) (tag f w : CStr) (aa : Option CStr) :
    (written (initrd_create cfg env tag f cfg.CODE w aa).trace =
        if env.fopen_ok then [preamble ++ code_fragment] else []) ∧
    (written (initrd_create cfg env tag f cfg.ROOTFS w aa).trace =
        if env.fopen_ok then [preamble ++ rootfs_fragment] else []) ∧
    lines preamble =
      [lit "#!/bin/sh", lit "# 初始化网络",
       lit "busybox ip addr add 192.168.50.10/24 dev eth0",
       lit "busybox ip link set eth0 up",
       lit "busybox ip route add default via 192.168.50.1",
       lit "# 创建设备节点",
       lit "busybox mknod /dev/null c 1 3",
       lit "busybox chmod 666 /dev/null", []] ∧
    (∃ body, code_fragment = body ++ lit "/bin/vguest_vsock\n" ++ lit "exec /bin/sh\n") ∧
    (¬ ∃ p s, preamble ++ code_fragment = p ++ lit "rootfs_part_" ++ s) ∧
    (¬ ∃ p s, preamble ++ code_fragment = p ++ lit "chroot" ++ s) ∧
    (∀ l ∈ lines rootfs_fragment, l ∉ lines code_fragment →
      l ∉ lines (preamble ++ code_fragment)) ∧
    (37 : UInt8) ∉ rootfs_fragment ∧
    format rootfs_fragment [] = rootfs_fragment ∧
    (¬ ∃ p s, preamble ++ rootfs_fragment = p ++ lit "exec /bin/sh" ++ s) ∧
    (¬ ∃ p s, preamble ++ rootfs_fragment = p ++ lit "/dev/vda" ++ s) ∧
    (∀ l ∈ lines code_fragment, l ∉ lines rootfs_fragment →
      l ∉ lines (preamble ++ rootfs_fragment)) := by
  have hc : script_of cfg cfg.CODE = preamble ++ code_fragment := by
    simp only [script_of, if_true]
  have hr : script_of cfg cfg.ROOTFS = preamble ++ rootfs_fragment := by
    have h : ¬ cfg.ROOTFS = cfg.CODE := fun e => cfg.distinct e.symm
    simp only [script_of, if_neg h, if_true]
  refine ⟨by rw [written_run, hc], by rw [written_run, hr], by decide!, ?_, ?_, ?_, by decide!,
    no_percent_rootfs, format_rootfs, ?_, ?_, by decide!⟩
  · exact ⟨code_fragment.take (code_fragment.length - 31), by decide!⟩
  · exact fun h => absurd ((occurs_iff _ _).mpr h) (by decide!)
  · exact fun h => absurd ((occurs_iff _ _).mpr h) (by decide!)
  · exact fun h => absurd ((occurs_iff _ _).mpr h) (by decide!)
  · exact fun h => absurd ((occurs_iff _ _).mpr h) (by decide!)

/-- C10: the preamble (227 bytes) with the CODE fragment (447 bytes) or the ROOTFS fragment
(1206 bytes) and the terminating NUL takes at most 8192 bytes, so the `strcat` of mode CODE stays
inside `init_script`, the `snprintf` of mode ROOTFS cuts nothing, and the `switch` leaves the
complete script in the buffer in both modes. -/
theorem C10_script_fits_buffer :
    preamble.length = 227 ∧ code_fragment.length = 447 ∧ rootfs_fragment.length = 1206 ∧
    preamble.length + code_fragment.length + 1 ≤ 8192 ∧
    preamble.length + rootfs_fragment.length + 1 ≤ 8192 ∧
    strcat 8192 preamble code_fragment = some (preamble ++ code_fragment) ∧
    snprintf (8192 - preamble.length) rootfs_fragment [] = rootfs_fragment ∧
    (∀ (cfg : Config) (env : Env) (n : Nat) (b f w : CStr),
      (mode_switch cfg env n b f cfg.CODE w preamble).2.2 = some (preamble ++ code_fragment) ∧
      (mode_switch cfg env n b f cfg.ROOTFS w preamble).2.2 =
        some (preamble ++ rootfs_fragment)) ∧
    (∀ (cfg : Config) (env : Env) (tag f w : CStr) (aa : Option CStr),
      written (initrd_create cfg env tag f cfg.CODE w aa).trace =
        (if env.fopen_ok then [preamble ++ code_fragment] else []) ∧
      written (initrd_create cfg env tag f cfg.ROOTFS w aa).trace =
        (if env.fopen_ok then [preamble ++ rootfs_fragment] else [])) := by
  refine ⟨by decide!, by decide!, by decide!, by decide!, by decide!, strcat_code, by decide!,
    ?_, ?_⟩
  · intro cfg env n b f w
    rw [mode_switch_code, mode_switch_rootfs]
    exact ⟨rfl, rfl⟩
  · intro cfg env tag f w aa
    have hr : ¬ cfg.ROOTFS = cfg.CODE := fun e => cfg.distinct e.symm
    simp only [written_run, if_true, script_of, if_neg hr, and_self]

/-! ## The commands requested (C2, C3, C4, C5) -/

/-- C2: when `build/<tag>/initrd/bin` fits `bin_path` and the staging command fits `commands`,
the run starts by asking for the directories `build/<tag>`, `build/<tag>/initrd` and
`build/<tag>/initrd/bin`, in that order, and then hands its first command to `system`: the
AND-list of the eight staging commands, all targeting `build/<tag>/initrd/bin`. -/
theorem C2_staging_command_first (cfg : Config) (env : Env) (tag f : CStr) (mode : Int)
    (w : CStr) (aa : Option CStr)
    (hpath : (lit "build/" ++ tag ++ lit "/initrd/bin").length < 1024)
    (hcmd : (and_list (staging_steps cfg (lit "build/" ++ tag ++ lit "/initrd/bin") f)).length
      < 4096) :
    (∃ rest, (initrd_create cfg env tag f mode w aa).trace =
      [Event.create_directory (lit "build/" ++ tag),
       Event.create_directory (lit "build/" ++ tag ++ lit "/initrd"),
       Event.create_directory (lit "build/" ++ tag ++ lit "/initrd/bin"),
       Event.system (and_list
         [lit "cp " ++ cfg.BUSYBOX ++ lit " " ++ (lit "build/" ++ tag ++ lit "/initrd/bin"),
          lit "cp " ++ cfg.DOCKER_INIT ++ lit " " ++ (lit "build/" ++ tag ++ lit "/initrd/bin")
            ++ lit "/",
          lit "ln -s busybox " ++ (lit "build/" ++ tag ++ lit "/initrd/bin") ++ lit "/sh",
          lit "cp " ++ cfg.VGUEST_DIR ++ lit " " ++ (lit "build/" ++ tag ++ lit "/initrd/bin")
            ++ lit "/",
          lit "cp " ++ f ++ lit " " ++ (lit "build/" ++ tag ++ lit "/initrd/bin") ++ lit "/",
          lit "cp -r /home/a/shelter/default_component/pgms " ++
            (lit "build/" ++ tag ++ lit "/initrd/bin") ++ lit "/",
          lit "cp /home/a/shelter/default_component/qemu_init.sh " ++
            (lit "build/" ++ tag ++ lit "/initrd/bin") ++ lit "/",
          lit "chmod +x " ++ (lit "build/" ++ tag ++ lit "/initrd/bin") ++ lit "/qemu_init.sh"])]
        ++ rest) ∧
    (system_cmds (initrd_create cfg env tag f mode w aa).trace).head? =
      some (and_list (staging_steps cfg (lit "build/" ++ tag ++ lit "/initrd/bin") f)) := by
  have hb : bin_path_of (initrd_path tag) = bin_dir tag := bin_path_fit tag hpath
  have hi : initrd_path tag = initrd_dir tag :=
    initrd_path_fit tag (by have := length_initrd_le_bin tag; unfold bin_dir at this; omega)
  have h0 : build_path tag = lit "build/" ++ tag :=
    build_path_fit tag (by
      have e : (lit "build/" ++ tag ++ lit "/initrd/bin").length =
        (lit "build/" ++ tag).length + (lit "/initrd/bin").length := List.length_append _ _
      omega)
  have hs : staging_command cfg (bin_dir tag) f = and_list (staging_steps cfg (bin_dir tag) f) :=
    staging_command_fit cfg _ f hcmd
  constructor
  · obtain ⟨rest, hr, _⟩ := trace_start cfg env tag f mode w aa
    refine ⟨(if env.system_ret 0 = -1 then
      [Event.log_error (format (lit "Failed to exec commands: %s")
        [Arg.str (and_list (staging_steps cfg (bin_dir tag) f))])] else []) ++ rest, ?_⟩
    rw [hr, hb, hi, h0, hs]
    simp only [system_logged, initrd_dir, bin_dir, staging_steps, List.cons_append,
      List.nil_append, List.append_assoc]
  · rw [system_cmds_run, hb, hs]
    rfl

/-- C2 at a concrete request: tag `t1`, source `/tmp/agent.bin`, mode CODE. -/
theorem C2_staging_command_first_witness :
    (∃ rest, (initrd_create example_config env_ok (lit "t1") (lit "/tmp/agent.bin") 0
        (lit "/app") none).trace =
      [Event.create_directory (lit "build/" ++ lit "t1"),
       Event.create_directory (lit "build/" ++ lit "t1" ++ lit "/initrd"),
       Event.create_directory (lit "build/" ++ lit "t1" ++ lit "/initrd/bin"),
       Event.system (and_list
         [lit "cp " ++ example_config.BUSYBOX ++ lit " " ++
            (lit "build/" ++ lit "t1" ++ lit "/initrd/bin"),
          lit "cp " ++ example_config.DOCKER_INIT ++ lit " " ++
            (lit "build/" ++ lit "t1" ++ lit "/initrd/bin") ++ lit "/",
          lit "ln -s busybox " ++ (lit "build/" ++ lit "t1" ++ lit "/initrd/bin") ++ lit "/sh",
          lit "cp " ++ example_config.VGUEST_DIR ++ lit " " ++
            (lit "build/" ++ lit "t1" ++ lit "/initrd/bin") ++ lit "/",
          lit "cp " ++ lit "/tmp/agent.bin" ++ lit " " ++
            (lit "build/" ++ lit "t1" ++ lit "/initrd/bin") ++ lit "/",
          lit "cp -r /home/a/shelter/default_component/pgms " ++
            (lit "build/" ++ lit "t1" ++ lit "/initrd/bin") ++ lit "/",
          lit "cp /home/a/shelter/default_component/qemu_init.sh " ++
            (lit "build/" ++ lit "t1" ++ lit "/initrd/bin") ++ lit "/",
          lit "chmod +x " ++ (lit "build/" ++ lit "t1" ++ lit "/initrd/bin") ++
            lit "/qemu_init.sh"])]
        ++ rest) ∧
    (system_cmds (initrd_create example_config env_ok (lit "t1") (lit "/tmp/agent.bin") 0
        (lit "/app") none).trace).head? =
      some (and_list (staging_steps example_config
        (lit "build/" ++ lit "t1" ++ lit "/initrd/bin") (lit "/tmp/agent.bin"))) :=
  C2_staging_command_first example_config env_ok (lit "t1") (lit "/tmp/agent.bin") 0
    (lit "/app") none (by decide!) (by decide!)

/-- C3: in mode ROOTFS, when the splitter command fits `commands`, the commands handed to
`system` are the staging command, the attestation-agent copy when a path was given, then one
splitter command, and last (when the init file opened) the packaging command; the splitter
command is the AND-list of `split -b 300M` of the staged file into parts with the prefix
`build/<tag>/initrd/bin/rootfs_part_`, `rm` of the staged file, and `sed -i` inserting
`cd <work_path>` as line 2 of the staged `docker_init`.  In mode CODE, for every request, the
commands are the staging command, the optional copy and the packaging command only. -/
theorem C3_splitter_command (cfg : Config) (env : Env) (tag f w : CStr) (aa : Option CStr) :
    ((and_list (splitter_steps (bin_dir tag) (cfg.get_file_name f) w)).length < 4096 →
      bin_path_of (initrd_path tag) = bin_dir tag ∧
      system_cmds (initrd_create cfg env tag f cfg.ROOTFS w aa).trace =
        staging_command cfg (bin_dir tag) f ::
          (aa_cmds aa (bin_dir tag) ++
            [and_list
              [lit "split -b 300M " ++ bin_dir tag ++ lit "/" ++ cfg.get_file_name f ++
                 lit " " ++ bin_dir tag ++ lit "/rootfs_part_",
               lit "rm " ++ bin_dir tag ++ lit "/" ++ cfg.get_file_name f,
               lit "sed -i '2i cd " ++ w ++ lit "' " ++ bin_dir tag ++ lit "/docker_init"]] ++
            (if env.fopen_ok then [packaging_command (init_path (initrd_path tag)) tag]
             else []))) ∧
    system_cmds (initrd_create cfg env tag f cfg.CODE w aa).trace =
      staging_command cfg (bin_path_of (initrd_path tag)) f ::
        (aa_cmds aa (bin_path_of (initrd_path tag)) ++
          (if env.fopen_ok then [packaging_command (init_path (initrd_path tag)) tag] else [])) := by
  have hr : ¬ cfg.ROOTFS = cfg.CODE := fun e => cfg.distinct e.symm
  refine ⟨fun hcmd => ?_, ?_⟩
  · have hlen : 4 * (bin_dir tag).length ≤
        (and_list (splitter_steps (bin_dir tag) (cfg.get_file_name f) w)).length := by
      simp only [and_list, splitter_steps, List.length_append]
      omega
    have hb : bin_path_of (initrd_path tag) = bin_dir tag := bin_path_fit tag (by omega)
    refine ⟨hb, ?_⟩
    rw [system_cmds_run, hb]
    simp only [split_cmds, if_neg hr, if_true, splitter_command_fit cfg _ f w hcmd]
    rfl
  · rw [system_cmds_run]
    simp only [split_cmds, if_true, List.append_nil]

/-- C3 at concrete requests: in mode ROOTFS tag `t2`, source `/tmp/rootfs.tar`, work path `/app`;
in mode CODE tag `t1` with a work path of 5000 bytes. -/
theorem C3_splitter_command_witness :
    system_cmds (initrd_create example_config env_ok (lit "t2") (lit "/tmp/rootfs.tar")
      example_config.ROOTFS (lit "/app") none).trace =
      staging_command example_config (bin_dir (lit "t2")) (lit "/tmp/rootfs.tar") ::
        (aa_cmds none (bin_dir (lit "t2")) ++
          [and_list
            [lit "split -b 300M " ++ bin_dir (lit "t2") ++ lit "/" ++
               example_config.get_file_name (lit "/tmp/rootfs.tar") ++ lit " " ++
               bin_dir (lit "t2") ++ lit "/rootfs_part_",
             lit "rm " ++ bin_dir (lit "t2") ++ lit "/" ++
               example_config.get_file_name (lit "/tmp/rootfs.tar"),
             lit "sed -i '2i cd " ++ lit "/app" ++ lit "' " ++ bin_dir (lit "t2") ++
               lit "/docker_init"]] ++
          (if env_ok.fopen_ok then
            [packaging_command (init_path (initrd_path (lit "t2"))) (lit "t2")] else [])) ∧
    system_cmds (initrd_create example_config env_ok (lit "t1") (lit "/tmp/agent.bin")
      example_config.CODE (List.replicate 5000 97) none).trace =
      staging_command example_config (bin_path_of (initrd_path (lit "t1")))
          (lit "/tmp/agent.bin") ::
        (aa_cmds none (bin_path_of (initrd_path (lit "t1"))) ++
          (if env_ok.fopen_ok then
            [packaging_command (init_path (initrd_path (lit "t1"))) (lit "t1")] else [])) :=
  ⟨((C3_splitter_command example_config env_ok (lit "t2") (lit "/tmp/rootfs.tar") (lit "/app")
      none).1 (by decide!)).2,
   (C3_splitter_command example_config env_ok (lit "t1") (lit "/tmp/agent.bin")
      (List.replicate 5000 97) none).2⟩

/-- When `build/<tag>/initrd/init` fits `init` and the init file opened, then for any mode value the run
writes the script to the stream, closes it, and right after hands `system` its last command: the
AND-list of `chmod +x` of `build/<tag>/initrd/init` (the path that was opened),
`cd build/<tag>/initrd`, and `find . | cpio -o -H newc | gzip > ../initrd.img`; no command
follows it and the run returns 0. -/
theorem packaging_last_when_opened (cfg : Config) (env : Env) (tag f : CStr) (mode : Int)
    (w : CStr) (aa : Option CStr)
    (hfit : (lit "build/" ++ tag ++ lit "/initrd/init").length < 512)
    (hopen : env.fopen_ok = true) :
    (∃ pre post, (initrd_create cfg env tag f mode w aa).trace =
      pre ++
      [Event.fprintf (script_of cfg mode), Event.fclose,
       Event.system (and_list
         [lit "sudo chmod +x " ++ (lit "build/" ++ tag ++ lit "/initrd/init"),
          lit "cd " ++ (lit "build/" ++ tag ++ lit "/initrd"),
          lit "find . | cpio -o -H newc | gzip > ../initrd.img"])] ++ post ∧
      Event.fopen (lit "build/" ++ tag ++ lit "/initrd/init") ∈ pre ∧
      system_cmds post = []) ∧
    (system_cmds (initrd_create cfg env tag f mode w aa).trace).getLast? =
      some (and_list
         [lit "sudo chmod +x " ++ (lit "build/" ++ tag ++ lit "/initrd/init"),
          lit "cd " ++ (lit "build/" ++ tag ++ lit "/initrd"),
          lit "find . | cpio -o -H newc | gzip > ../initrd.img"]) ∧
    (initrd_create cfg env tag f mode w aa).ret = some 0 := by
  have hp : packaging_command (init_path (initrd_path tag)) tag =
      and_list (packaging_steps (init_file tag) tag) := packaging_command_fit tag hfit
  have hi : init_path (initrd_path tag) = init_file tag := init_path_fit tag hfit
  refine ⟨?_, ?_, by rw [initrd_create_opened cfg env tag f mode w aa hopen]⟩
  · refine ⟨before_write cfg env tag f mode w aa,
      (if env.system_ret (mode_switch cfg env (aa_copy env aa (bin_path_of (initrd_path tag))).2
            (bin_path_of (initrd_path tag)) f mode w preamble).2.1 = -1 then
        [Event.log_error (format (lit "Failed to exec commands: %s")
          [Arg.str (and_list (packaging_steps (init_file tag) tag))])] else []) ++
      [Event.printf (format (lit "initrd created successfully for tag: %s\n") [Arg.str tag])],
      ?_, ?_, ?_⟩
    · rw [initrd_create_opened cfg env tag f mode w aa hopen]
      simp only [after_write, hp, system_logged, packaging_steps, init_file, List.cons_append,
        List.nil_append, List.append_assoc]
    · have := fopen_mem_before cfg env tag f mode w aa
      rw [hi] at this
      exact this
    · split <;> rfl
  · rw [system_cmds_last cfg env tag f mode w aa hopen, hp]
    rfl

/-- C4 at the failing input: tag `t1` (its paths fit the buffers), mode CODE, `fopen` returning
NULL.  The run never writes or closes the init script and never requests the packaging
command: the last command it hands to `system` is the staging command, and it does not
return. -/
theorem C4_fopen_failure :
    (lit "build/" ++ lit "t1" ++ lit "/initrd/init").length < 512 ∧
    (system_cmds (initrd_create example_config env_fopen_fails (lit "t1")
      (lit "/tmp/agent.bin") example_config.CODE (lit "/app") none).trace).getLast? =
      some (and_list (staging_steps example_config (lit "build/t1/initrd/bin")
        (lit "/tmp/agent.bin"))) ∧
    lit ("sudo chmod +x build/t1/initrd/init && cd build/t1/initrd && " ++
      "find . | cpio -o -H newc | gzip > ../initrd.img") ∉
      system_cmds (initrd_create example_config env_fopen_fails (lit "t1")
        (lit "/tmp/agent.bin") example_config.CODE (lit "/app") none).trace ∧
    Event.fclose ∉ (initrd_create example_config env_fopen_fails (lit "t1")
      (lit "/tmp/agent.bin") example_config.CODE (lit "/app") none).trace ∧
    written (initrd_create example_config env_fopen_fails (lit "t1")
      (lit "/tmp/agent.bin") example_config.CODE (lit "/app") none).trace = [] ∧
    (initrd_create example_config env_fopen_fails (lit "t1")
      (lit "/tmp/agent.bin") example_config.CODE (lit "/app") none).ret = none := by
  decide!

/-- C6 at the failing input: when `fopen` returns NULL (tag `t1`, mode CODE, every command
succeeding) the run logs `Failed to create init file`, then passes the NULL stream to `fprintf`:
it never returns 0, and the only command it handed to `system` is the staging command, not the
packaging command. -/
theorem C6_fopen_failure :
    (initrd_create example_config env_fopen_fails (lit "t1") (lit "/tmp/agent.bin")
      example_config.CODE (lit "/app") none).ret = none ∧
    logged (initrd_create example_config env_fopen_fails (lit "t1") (lit "/tmp/agent.bin")
      example_config.CODE (lit "/app") none).trace =
      [lit "Failed to create init file: build/t1/initrd/init"] ∧
    system_cmds (initrd_create example_config env_fopen_fails (lit "t1") (lit "/tmp/agent.bin")
      example_config.CODE (lit "/app") none).trace =
      [and_list (staging_steps example_config (lit "build/t1/initrd/bin")
        (lit "/tmp/agent.bin"))] ∧
    written (initrd_create example_config env_fopen_fails (lit "t1") (lit "/tmp/agent.bin")
      example_config.CODE (lit "/app") none).trace = [] := by
  decide!

/-- C7, as stated, fails: with mode 7 (neither CODE = 0 nor ROOTFS = 1) and tag `t1` the run
still hands `system` the packaging command that writes `build/t1/initrd.img`, and returns 0. -/
theorem C7_counterexample :
    (7 : Int) ≠ example_config.CODE ∧ (7 : Int) ≠ example_config.ROOTFS ∧
    lit ("sudo chmod +x build/t1/initrd/init && cd build/t1/initrd && " ++
      "find . | cpio -o -H newc | gzip > ../initrd.img") ∈
      system_cmds (initrd_create example_config env_ok (lit "t1") (lit "/tmp/agent.bin") 7
        (lit "/app") none).trace ∧
    (initrd_create example_config env_ok (lit "t1") (lit "/tmp/agent.bin") 7
      (lit "/app") none).ret = some 0 := by
  decide!

/-- C7, amended: for a mode value that is neither CODE nor ROOTFS, when `build/<tag>/initrd/init`
fits `init`, the run logs `Unknown mode: <mode>` and, whenever the init file opened, still hands
`system` as its last command the packaging command `sudo chmod +x build/<tag>/initrd/init && cd
build/<tag>/initrd && find . | cpio -o -H newc | gzip > ../initrd.img`, which writes
`build/<tag>/initrd.img`, and returns 0. -/
theorem C7_unknown_mode_still_packages (cfg : Config) (env : Env) (tag f : CStr) (mode : Int)
    (w : CStr) (aa : Option CStr) (h1 : mode ≠ cfg.CODE) (h2 : mode ≠ cfg.ROOTFS)
    (hfit : (lit "build/" ++ tag ++ lit "/initrd/init").length < 512) :
    lit "Unknown mode: " ++ decimal mode ∈ logged (initrd_create cfg env tag f mode w aa).trace ∧
    (env.fopen_ok = true →
      (system_cmds (initrd_create cfg env tag f mode w aa).trace).getLast? =
        some (and_list
          [lit "sudo chmod +x " ++ (lit "build/" ++ tag ++ lit "/initrd/init"),
           lit "cd " ++ (lit "build/" ++ tag ++ lit "/initrd"),
           lit "find . | cpio -o -H newc | gzip > ../initrd.img"]) ∧
      (initrd_create cfg env tag f mode w aa).ret = some 0) := by
  refine ⟨?_, ?_⟩
  · apply mem_logged
    have hm := unknown_mem_before cfg env tag f mode w aa h1 h2
    cases h : env.fopen_ok
    · rw [initrd_create_not_opened cfg env tag f mode w aa h]
      exact hm
    · rw [initrd_create_opened cfg env tag f mode w aa h]
      exact List.mem_append_left _ (List.mem_append_left _ hm)
  · intro h
    constructor
    · rw [system_cmds_last cfg env tag f mode w aa h, packaging_command_fit tag hfit]
      rfl
    · rw [initrd_create_opened cfg env tag f mode w aa h]

/-- C7 (amended) at a concrete request: tag `t1`, mode 7, the init file opening. -/
theorem C7_unknown_mode_still_packages_witness :
    lit "Unknown mode: " ++ decimal 7 ∈
      logged (initrd_create example_config env_ok (lit "t1") (lit "/tmp/agent.bin") 7
        (lit "/app") none).trace ∧
    (system_cmds (initrd_create example_config env_ok (lit "t1") (lit "/tmp/agent.bin") 7
        (lit "/app") none).trace).getLast? =
      some (and_list
        [lit "sudo chmod +x " ++ (lit "build/" ++ lit "t1" ++ lit "/initrd/init"),
         lit "cd " ++ (lit "build/" ++ lit "t1" ++ lit "/initrd"),
         lit "find . | cpio -o -H newc | gzip > ../initrd.img"]) ∧
    (initrd_create example_config env_ok (lit "t1") (lit "/tmp/agent.bin") 7
      (lit "/app") none).ret = some 0 :=
  have h := C7_unknown_mode_still_packages example_config env_ok (lit "t1")
    (lit "/tmp/agent.bin") 7 (lit "/app") none (by decide) (by decide) (by decide!)
  ⟨h.1, h.2 rfl⟩

/-- C8: for a mode value that is neither CODE nor ROOTFS the run logs `Unknown mode: <mode>`, and
the text it writes to the init file it opened is the preamble alone (written once, when the file
opened); the file opened is `build/<tag>/initrd/init` when that path fits `init`. -/
theorem C8_unknown_mode_preamble_only (cfg : Config) (env : Env) (tag f : CStr) (mode : Int)
    (w : CStr) (aa : Option CStr) (h1 : mode ≠ cfg.CODE) (h2 : mode ≠ cfg.ROOTFS) :
    lit "Unknown mode: " ++ decimal mode ∈ logged (initrd_create cfg env tag f mode w aa).trace ∧
    written (initrd_create cfg env tag f mode w aa).trace =
      (if env.fopen_ok then [preamble] else []) ∧
    Event.fopen (init_path (initrd_path tag)) ∈ (initrd_create cfg env tag f mode w aa).trace ∧
    ((lit "build/" ++ tag ++ lit "/initrd/init").length < 512 →
      init_path (initrd_path tag) = lit "build/" ++ tag ++ lit "/initrd/init") := by
  refine ⟨?_, ?_, ?_, ?_⟩
  · apply mem_logged
    have hm := unknown_mem_before cfg env tag f mode w aa h1 h2
    cases h : env.fopen_ok
    · rw [initrd_create_not_opened cfg env tag f mode w aa h]
      exact hm
    · rw [initrd_create_opened cfg env tag f mode w aa h]
      exact List.mem_append_left _ (List.mem_append_left _ hm)
  · rw [written_run]
    simp only [script_of, if_neg h1, if_neg h2]
  · have hm := fopen_mem_before cfg env tag f mode w aa
    cases h : env.fopen_ok
    · rw [initrd_create_not_opened cfg env tag f mode w aa h]
      exact hm
    · rw [initrd_create_opened cfg env tag f mode w aa h]
      exact List.mem_append_left _ (List.mem_append_left _ hm)
  · intro h
    exact init_path_fit tag h

/-- C8 at a concrete request: tag `t1`, mode 7, the init file opening. -/
theorem C8_unknown_mode_preamble_only_witness :
    lit "Unknown mode: 7" ∈
      logged (initrd_create example_config env_ok (lit "t1") (lit "/tmp/agent.bin") 7
        (lit "/app") none).trace ∧
    written (initrd_create example_config env_ok (lit "t1") (lit "/tmp/agent.bin") 7
      (lit "/app") none).trace = [preamble] :=
  have h := C8_unknown_mode_preamble_only example_config env_ok (lit "t1")
    (lit "/tmp/agent.bin") 7 (lit "/app") none (by decide) (by decide)
  ⟨(by decide! : lit "Unknown mode: " ++ decimal 7 = lit "Unknown mode: 7") ▸ h.1, h.2.1⟩

end InitrdCreator
